import Mathlib

/-!
Verification of the task-management backend in `src/main.py` (FastAPI +
SQLModel over SQLite).

The persisted store is a single `task` table with columns `id` (INTEGER
PRIMARY KEY), `title` (VARCHAR, pydantic-constrained to 1..100 characters)
and `done` (BOOLEAN).  We embed the store as a list of rows and each HTTP
handler as a pure function from the store (plus the request data) to a
result together with the post-state of the store.  Handlers that raise
`HTTPException` before touching the session are embedded as returning an
error together with the unchanged store.
-/

namespace TodoApp

/-- A persisted task row (`class Task(TaskBase, table=True)`, src/main.py
lines 14-28): fields `id`, `title`, `done` and nothing else.  In the store a
row always has a concrete primary key, so `id` is a plain `Nat` here. -/
structure Task where
  id : Nat
  title : String
  done : Bool
deriving Repr, DecidableEq

/-- The persisted state: the rows of the `task` table, in storage (rowid)
order. -/
structure DB where
  tasks : List Task
deriving Repr, DecidableEq

/-- The empty store, as created by `SQLModel.metadata.create_all(engine)` at
startup (src/main.py lines 39-45). -/
def emptyDB : DB := ⟨[]⟩

/-- An HTTP-level failure: `HTTPException(status_code, detail)` raised by a
handler, a pydantic validation failure (422), or an uncaught storage error
surfaced as a 500. -/
inductive ApiError where
  | httpError (status : Nat) (detail : String)
deriving Repr, DecidableEq

/-- Largest primary key currently in use (0 for an empty table).  SQLite
consults this value when it assigns a rowid to an inserted row whose `id` is
NULL. -/
def maxId (db : DB) : Nat :=
  db.tasks.foldr (fun t m => max t.id m) 0

/-- The id SQLite assigns to an inserted row with NULL `id`.  The model's
primary key (`id: int | None = Field(default=None, primary_key=True)`,
src/main.py line 28) is an SQLite INTEGER PRIMARY KEY *without*
AUTOINCREMENT, so the engine assigns one more than the largest rowid
currently in the table (1 for an empty table); deleting the largest row
therefore frees its id for reuse. -/
def nextId (db : DB) : Nat := maxId db + 1

/-- `POST /tasks` handler `create_task` (src/main.py lines 73-87).  The
request body is parsed as the table model `Task`, so it carries the required
`title`, the optional `done` (default false) and — because the body model is
the table model rather than `TaskBase` — an optional client-supplied `id`
(`cid` here).  The handler first runs the duplicate-title check
(`select(Task).where(Task.title == task.title)).first()`, lines 80-82) and
raises 400 without writing when a row with the same title exists.  Otherwise
it inserts the row: the id is the client-supplied one if present, else the
engine-assigned `nextId`; inserting an id that already exists violates the
primary key, which surfaces as an uncaught IntegrityError (HTTP 500) with no
row written. -/
def create_task (db : DB) (title : String) (done : Bool) (cid : Option Nat) :
    Except ApiError Task × DB :=
  if db.tasks.any (fun t => t.title == title) then
    (.error (.httpError 400 "Ya existe una tarea con ese título"), db)
  else if db.tasks.any (fun t => t.id == cid.getD (nextId db)) then
    (.error (.httpError 500 "IntegrityError: UNIQUE constraint failed: task.id"), db)
  else
    (.ok ⟨cid.getD (nextId db), title, done⟩,
     ⟨db.tasks ++ [⟨cid.getD (nextId db), title, done⟩]⟩)

/-- `GET /tasks` handler `read_tasks` (src/main.py lines 92-98): returns all
rows.  The response model `TaskRead` carries exactly `id`, `title`, `done`,
which are exactly the fields of `Task`, so the serialized records coincide
with the rows themselves. -/
def read_tasks (db : DB) : List Task := db.tasks

/-- `PUT /tasks/{task_id}` handler `update_task` (src/main.py lines
102-117): look the row up by primary key (`session.get(Task, task_id)`);
404 and no write when absent; otherwise overwrite both `title` and `done`
with the request body's values (full replace) and commit, returning the
refreshed row.  No title-uniqueness check is performed.  The commit is the
SQL `UPDATE ... WHERE id = task_id`, embedded as the pointwise map below. -/
def update_task (db : DB) (task_id : Nat) (title : String) (done : Bool) :
    Except ApiError Task × DB :=
  match db.tasks.find? (fun t => t.id == task_id) with
  | none => (.error (.httpError 404 "Tarea no encontrada"), db)
  | some t =>
      (.ok ⟨t.id, title, done⟩,
       ⟨db.tasks.map (fun u => if u.id == task_id then ⟨u.id, title, done⟩ else u)⟩)

/-- `DELETE /tasks/{task_id}` handler `delete_task` (src/main.py lines
121-133): 404 and no write when the id is absent; otherwise hard-delete the
row and return `{"mensaje": f"Tarea con id {task_id} eliminada"}`. -/
def delete_task (db : DB) (task_id : Nat) :
    Except ApiError String × DB :=
  match db.tasks.find? (fun t => t.id == task_id) with
  | none => (.error (.httpError 404 "Tarea no encontrada"), db)
  | some _ =>
      (.ok ("Tarea con id " ++ toString task_id ++ " eliminada"),
       ⟨db.tasks.filter (fun t => t.id != task_id)⟩)

/-- `PATCH /tasks/{task_id}/done` handler `mark_task_done` (src/main.py
lines 136-150): 404 and no write when absent; otherwise set `done = True`
unconditionally, commit, and return the refreshed row. -/
def mark_task_done (db : DB) (task_id : Nat) :
    Except ApiError Task × DB :=
  match db.tasks.find? (fun t => t.id == task_id) with
  | none => (.error (.httpError 404 "Tarea no encontrada"), db)
  | some t =>
      (.ok ⟨t.id, t.title, true⟩,
       ⟨db.tasks.map (fun u => if u.id == task_id then ⟨u.id, u.title, true⟩ else u)⟩)

/-- `PATCH /tasks/{task_id}/toggle` handler `toggle_task` (src/main.py lines
153-171): 404 and no write when absent; otherwise negate `done`
(`task.done = not task.done`), commit, and return the refreshed row. -/
def toggle_task (db : DB) (task_id : Nat) :
    Except ApiError Task × DB :=
  match db.tasks.find? (fun t => t.id == task_id) with
  | none => (.error (.httpError 404 "Tarea no encontrada"), db)
  | some t =>
      (.ok ⟨t.id, t.title, !t.done⟩,
       ⟨db.tasks.map (fun u => if u.id == task_id then ⟨u.id, u.title, !u.done⟩ else u)⟩)

/-- The pydantic constraint on `title`
(`constr(min_length=1, max_length=100)`, src/main.py line 20): between 1 and
100 characters. -/
def validTitle (s : String) : Bool :=
  decide (1 ≤ s.length) && decide (s.length ≤ 100)

/-- A validated request body for the `TaskBase` input model (src/main.py
lines 14-21): required `title`, `done` defaulting to false. -/
structure TaskBase where
  title : String
  done : Bool
deriving Repr, DecidableEq

/-- The FastAPI/pydantic request-body validation boundary for a `TaskBase`
(or `Task`) body: a missing `title` field, or a title outside 1..100
characters, is rejected with HTTP 422 before the handler runs; a missing
`done` defaults to false. -/
def parse_task_base (title : Option String) (done : Option Bool) :
    Except ApiError TaskBase :=
  match title with
  | none => .error (.httpError 422 "field required: title")
  | some s =>
      if validTitle s then .ok ⟨s, done.getD false⟩
      else .error (.httpError 422 "title: length must be between 1 and 100")

/-- The routed `POST /tasks` request: body validation, then `create_task`.
A validation failure never reaches the handler, so the store is unchanged. -/
def post_tasks (db : DB) (title : Option String) (done : Option Bool)
    (cid : Option Nat) : Except ApiError Task × DB :=
  match parse_task_base title done with
  | .error e => (.error e, db)
  | .ok b => create_task db b.title b.done cid

/-- The routed `PUT /tasks/{task_id}` request: body validation, then
`update_task`. -/
def put_task (db : DB) (task_id : Nat) (title : Option String)
    (done : Option Bool) : Except ApiError Task × DB :=
  match parse_task_base title done with
  | .error e => (.error e, db)
  | .ok b => update_task db task_id b.title b.done

/-- An API-level operation against the store, as issued through the HTTP
surface described in the spec (`POST /tasks` bodies carry `title` and
optional `done`; the mutating routes carry a `task_id`). -/
inductive Op where
  | createOp (title : String) (done : Bool)
  | updateOp (id : Nat) (title : String) (done : Bool)
  | deleteOp (id : Nat)
  | doneOp (id : Nat)
  | toggleOp (id : Nat)
deriving Repr, DecidableEq

/-- The store after one operation (the response is discarded; failed
operations leave the store unchanged by construction of the handlers). -/
def step (db : DB) : Op → DB
  | .createOp t d => (create_task db t d none).2
  | .updateOp i t d => (update_task db i t d).2
  | .deleteOp i => (delete_task db i).2
  | .doneOp i => (mark_task_done db i).2
  | .toggleOp i => (toggle_task db i).2

/-- The store reached from startup by a sequence of operations. -/
def run (ops : List Op) : DB := ops.foldl step emptyDB

/-- Specification-side bookkeeping, written from the spec's words (§4.2-4.7
and §8): the tasks created and not subsequently deleted, each carrying the
`title` and `done` written by the last successful operation on it.  Create
succeeds exactly when the title is not already present and appends a record
with the storage-assigned id; update/mark-done/toggle rewrite the fields of
the record with the given id and do nothing when it is absent; delete
removes it. -/
def specStep (m : List Task) : Op → List Task
  | .createOp t d =>
      if m.any (fun u => u.title == t) then m
      else m ++ [⟨nextId ⟨m⟩, t, d⟩]
  | .updateOp i t d => m.map (fun u => if u.id == i then ⟨u.id, t, d⟩ else u)
  | .deleteOp i => m.filter (fun u => u.id != i)
  | .doneOp i => m.map (fun u => if u.id == i then ⟨u.id, u.title, true⟩ else u)
  | .toggleOp i => m.map (fun u => if u.id == i then ⟨u.id, u.title, !u.done⟩ else u)

/-- The spec-side view of the store after a sequence of operations. -/
def specList (ops : List Op) : List Task := ops.foldl specStep []

instance {ε α : Type} [DecidableEq ε] [DecidableEq α] :
    DecidableEq (Except ε α) := fun a b =>
  match a, b with
  | .ok x, .ok y => decidable_of_iff (x = y) (by simp)
  | .error x, .error y => decidable_of_iff (x = y) (by simp)
  | .ok _, .error _ => isFalse (by simp)
  | .error _, .ok _ => isFalse (by simp)

lemma id_le_foldr_max {l : List Task} {t : Task} (h : t ∈ l) :
    t.id ≤ l.foldr (fun u m => max u.id m) 0 := by
  induction l with
  | nil => cases h
  | cons a l ih =>
      simp only [List.foldr_cons]
      rcases List.mem_cons.mp h with rfl | h
      · exact Nat.le_max_left _ _
      · exact le_trans (ih h) (Nat.le_max_right _ _)

lemma id_ne_nextId {db : DB} {t : Task} (h : t ∈ db.tasks) : t.id ≠ nextId db := by
  have hle : t.id ≤ maxId db := id_le_foldr_max h
  unfold nextId
  omega

lemma any_id_nextId (db : DB) :
    db.tasks.any (fun t => t.id == nextId db) = false := by
  rw [Bool.eq_false_iff]
  intro hany
  obtain ⟨t, ht, hbeq⟩ := List.any_eq_true.mp hany
  exact id_ne_nextId ht (by simpa using hbeq)

lemma find?_id_eq_none {db : DB} {i : Nat} (h : ∀ t ∈ db.tasks, t.id ≠ i) :
    db.tasks.find? (fun t => t.id == i) = none :=
  List.find?_eq_none.mpr (fun t ht => by simp [h t ht])

lemma find?_id_exists {db : DB} {i : Nat} (h : ∃ t ∈ db.tasks, t.id = i) :
    ∃ u, db.tasks.find? (fun t => t.id == i) = some u ∧ u.id = i := by
  obtain ⟨t, ht, hti⟩ := h
  have hs : (db.tasks.find? (fun t => t.id == i)).isSome :=
    List.find?_isSome.mpr ⟨t, ht, by simp [hti]⟩
  obtain ⟨u, hu⟩ := Option.isSome_iff_exists.mp hs
  exact ⟨u, hu, by simpa using List.find?_some hu⟩

lemma map_ite_eq_self {l : List Task} {i : Nat} (f : Task → Task)
    (h : ∀ u ∈ l, u.id ≠ i) :
    l.map (fun u => if u.id == i then f u else u) = l := by
  induction l with
  | nil => rfl
  | cons a l ih =>
      have ha : (a.id == i) = false := by simp [h a (List.mem_cons_self a l)]
      simp only [List.map_cons, ha, Bool.false_eq_true, if_false]
      rw [ih (fun u hu => h u (List.mem_cons_of_mem _ hu))]

lemma map_proj_map_ite {β : Type} (proj : Task → β) {l : List Task} {i : Nat}
    (f : Task → Task) (hf : ∀ u, proj (f u) = proj u) :
    (l.map (fun u => if u.id == i then f u else u)).map proj = l.map proj := by
  induction l with
  | nil => rfl
  | cons a l ih =>
      simp only [List.map_cons]
      by_cases hc : a.id = i
      · have hb : (a.id == i) = true := by simp [hc]
        rw [if_pos hb, hf a, ih]
      · have hb : (a.id == i) = false := by simp [hc]
        rw [if_neg (by simp [hb]), ih]

lemma filter_map_ite {l : List Task} {i : Nat} (f : Task → Task)
    (hf : ∀ u, (f u).id = u.id) :
    (l.map (fun u => if u.id == i then f u else u)).filter (fun t => t.id != i)
      = l.filter (fun t => t.id != i) := by
  induction l with
  | nil => rfl
  | cons a l ih =>
      simp only [List.map_cons]
      by_cases hc : a.id = i
      · have hb : (a.id == i) = true := by simp [hc]
        rw [if_pos hb, List.filter_cons, List.filter_cons]
        have h1 : ¬(((f a).id != i) = true) := by simp [hf a, hc]
        have h2 : ¬((a.id != i) = true) := by simp [hc]
        rw [if_neg h1, if_neg h2, ih]
      · have hb : (a.id == i) = false := by simp [hc]
        rw [if_neg (by simp [hb]), List.filter_cons, List.filter_cons]
        have h2 : (a.id != i) = true := by simp [hc]
        rw [if_pos h2, if_pos h2, ih]

lemma filter_ne_idem (l : List Task) (i : Nat) :
    (l.filter (fun t => t.id != i)).filter (fun t => t.id != i)
      = l.filter (fun t => t.id != i) := by
  induction l with
  | nil => rfl
  | cons a l ih =>
      by_cases hc : (a.id != i) = true
      · simp [hc, ih]
      · simp [hc, ih]

lemma map_invol {l : List Task} {f : Task → Task} (h : ∀ u ∈ l, f (f u) = u) :
    (l.map f).map f = l := by
  induction l with
  | nil => rfl
  | cons a l ih =>
      simp only [List.map_cons]
      rw [h a (List.mem_cons_self a l),
        ih (fun u hu => h u (List.mem_cons_of_mem _ hu))]

lemma map_idem {l : List Task} {f : Task → Task} (h : ∀ u ∈ l, f (f u) = f u) :
    (l.map f).map f = l.map f := by
  induction l with
  | nil => rfl
  | cons a l ih =>
      simp only [List.map_cons]
      rw [h a (List.mem_cons_self a l),
        ih (fun u hu => h u (List.mem_cons_of_mem _ hu))]

lemma filter_ne_eq_self {l : List Task} {i : Nat} (h : ∀ u ∈ l, u.id ≠ i) :
    l.filter (fun t => t.id != i) = l := by
  induction l with
  | nil => rfl
  | cons a l ih =>
      have ha : (a.id != i) = true := by simp [h a (List.mem_cons_self a l)]
      rw [List.filter_cons, if_pos ha,
        ih (fun u hu => h u (List.mem_cons_of_mem _ hu))]

lemma create_task_dup {db : DB} {title : String} (done : Bool) (cid : Option Nat)
    (h : db.tasks.any (fun t => t.title == title) = true) :
    create_task db title done cid
      = (.error (.httpError 400 "Ya existe una tarea con ese título"), db) := by
  unfold create_task
  rw [if_pos h]

lemma create_task_collision {db : DB} {title : String} (done : Bool)
    {cid : Option Nat}
    (h1 : db.tasks.any (fun t => t.title == title) = false)
    (h2 : db.tasks.any (fun t => t.id == cid.getD (nextId db)) = true) :
    create_task db title done cid
      = (.error (.httpError 500 "IntegrityError: UNIQUE constraint failed: task.id"),
         db) := by
  unfold create_task
  rw [if_neg (by simp [h1]), if_pos h2]

lemma create_task_ok {db : DB} {title : String} (done : Bool) {cid : Option Nat}
    (h1 : db.tasks.any (fun t => t.title == title) = false)
    (h2 : db.tasks.any (fun t => t.id == cid.getD (nextId db)) = false) :
    create_task db title done cid
      = (.ok ⟨cid.getD (nextId db), title, done⟩,
         ⟨db.tasks ++ [⟨cid.getD (nextId db), title, done⟩]⟩) := by
  unfold create_task
  rw [if_neg (by simp [h1]), if_neg (by simp [h2])]

lemma create_task_fresh {db : DB} {title : String} (done : Bool)
    (h : db.tasks.any (fun t => t.title == title) = false) :
    create_task db title done none
      = (.ok ⟨nextId db, title, done⟩,
         ⟨db.tasks ++ [⟨nextId db, title, done⟩]⟩) := by
  have h2 : db.tasks.any
      (fun t => t.id == (none : Option Nat).getD (nextId db)) = false := by
    simpa using any_id_nextId db
  exact create_task_ok done h h2

lemma update_task_none {db : DB} {i : Nat}
    (h : db.tasks.find? (fun t => t.id == i) = none) (title : String)
    (done : Bool) :
    update_task db i title done
      = (.error (.httpError 404 "Tarea no encontrada"), db) := by
  unfold update_task
  rw [h]

lemma update_task_some {db : DB} {i : Nat} {u : Task}
    (h : db.tasks.find? (fun t => t.id == i) = some u) (title : String)
    (done : Bool) :
    update_task db i title done
      = (.ok ⟨u.id, title, done⟩,
         ⟨db.tasks.map (fun v => if v.id == i then ⟨v.id, title, done⟩ else v)⟩) := by
  unfold update_task
  rw [h]

lemma delete_task_none {db : DB} {i : Nat}
    (h : db.tasks.find? (fun t => t.id == i) = none) :
    delete_task db i = (.error (.httpError 404 "Tarea no encontrada"), db) := by
  unfold delete_task
  rw [h]

lemma delete_task_some {db : DB} {i : Nat} {u : Task}
    (h : db.tasks.find? (fun t => t.id == i) = some u) :
    delete_task db i
      = (.ok ("Tarea con id " ++ toString i ++ " eliminada"),
         ⟨db.tasks.filter (fun t => t.id != i)⟩) := by
  unfold delete_task
  rw [h]

lemma mark_task_done_none {db : DB} {i : Nat}
    (h : db.tasks.find? (fun t => t.id == i) = none) :
    mark_task_done db i
      = (.error (.httpError 404 "Tarea no encontrada"), db) := by
  unfold mark_task_done
  rw [h]

lemma mark_task_done_some {db : DB} {i : Nat} {u : Task}
    (h : db.tasks.find? (fun t => t.id == i) = some u) :
    mark_task_done db i
      = (.ok ⟨u.id, u.title, true⟩,
         ⟨db.tasks.map (fun v => if v.id == i then ⟨v.id, v.title, true⟩ else v)⟩) := by
  unfold mark_task_done
  rw [h]

lemma toggle_task_none {db : DB} {i : Nat}
    (h : db.tasks.find? (fun t => t.id == i) = none) :
    toggle_task db i = (.error (.httpError 404 "Tarea no encontrada"), db) := by
  unfold toggle_task
  rw [h]

lemma toggle_task_some {db : DB} {i : Nat} {u : Task}
    (h : db.tasks.find? (fun t => t.id == i) = some u) :
    toggle_task db i
      = (.ok ⟨u.id, u.title, !u.done⟩,
         ⟨db.tasks.map (fun v => if v.id == i then ⟨v.id, v.title, !v.done⟩ else v)⟩) := by
  unfold toggle_task
  rw [h]

/-- Claim C1 (amended): creating a task whose title already exists fails with
the duplicate-title condition — HTTP 400 with the source's message "Ya existe
una tarea con ese título" (Spanish for "a task with that title already
exists") — and performs no write: the store is returned unchanged. -/
theorem create_duplicate_title_fails (db : DB) (title : String) (done : Bool)
    (cid : Option Nat) (h : ∃ t ∈ db.tasks, t.title = title) :
    create_task db title done cid
      = (.error (.httpError 400 "Ya existe una tarea con ese título"), db) := by
  obtain ⟨t, ht, rfl⟩ := h
  have hany : db.tasks.any (fun u => u.title == t.title) = true :=
    List.any_eq_true.mpr ⟨t, ht, by simp⟩
  simp [create_task, hany]

/-- Claim C1 counterexample: on the concrete store holding one task titled
"a", the duplicate create fails with the Spanish message of src/main.py line
82, not the English message the claim states. -/
theorem create_duplicate_title_message_counterexample :
    (create_task ⟨[⟨1, "a", false⟩]⟩ "a" false none).1
      ≠ Except.error (ApiError.httpError 400 "a task with that title already exists") := by
  decide

/-- Witness for `create_duplicate_title_fails` at a concrete store. -/
theorem create_duplicate_title_fails_witness :
    create_task ⟨[⟨1, "a", false⟩]⟩ "a" true none
      = (.error (.httpError 400 "Ya existe una tarea con ese título"),
         ⟨[⟨1, "a", false⟩]⟩) :=
  create_duplicate_title_fails _ _ _ _ ⟨⟨1, "a", false⟩, by decide, rfl⟩

/-- Claim C2 counterexample: create "a" is assigned id 1; after deleting
task 1, create "b" is assigned id 1 again — an id previously assigned to a
task that was later deleted, contradicting "distinct from every id ever
previously assigned". -/
theorem create_id_reuse_counterexample :
    (run [Op.createOp "a" false]).tasks = [⟨1, "a", false⟩]
    ∧ (create_task (run [Op.createOp "a" false, Op.deleteOp 1]) "b" false none).1
        = .ok ⟨1, "b", false⟩ := by
  decide

/-- Claim C2 (amended): for a valid title (1-100 characters) not carried by
any stored task and a body without a client-supplied id, create succeeds and
returns the full created record; its id is `maxId + 1`, hence distinct from
the id of every task currently in the store — but it may coincide with the
id of a previously deleted task. -/
theorem create_fresh_title_succeeds (db : DB) (title : String) (done : Bool)
    (hv : validTitle title = true) (h : ∀ t ∈ db.tasks, t.title ≠ title) :
    post_tasks db (some title) (some done) none
      = (.ok ⟨nextId db, title, done⟩, ⟨db.tasks ++ [⟨nextId db, title, done⟩]⟩)
    ∧ ∀ t ∈ db.tasks, t.id ≠ nextId db := by
  refine ⟨?_, fun t ht => id_ne_nextId ht⟩
  have hany : db.tasks.any (fun u => u.title == title) = false := by
    rw [Bool.eq_false_iff]
    intro hb
    obtain ⟨t, ht, hbeq⟩ := List.any_eq_true.mp hb
    exact h t ht (by simpa using hbeq)
  simp [post_tasks, parse_task_base, hv, create_task, hany, any_id_nextId db]

/-- Witness for `create_fresh_title_succeeds` at a concrete store. -/
theorem create_fresh_title_succeeds_witness :
    post_tasks ⟨[⟨1, "a", false⟩]⟩ (some "b") (some true) none
      = (.ok ⟨nextId ⟨[⟨1, "a", false⟩]⟩, "b", true⟩,
         ⟨[⟨1, "a", false⟩] ++ [⟨nextId ⟨[⟨1, "a", false⟩]⟩, "b", true⟩]⟩)
    ∧ ∀ t ∈ DB.tasks ⟨[⟨1, "a", false⟩]⟩, t.id ≠ nextId ⟨[⟨1, "a", false⟩]⟩ :=
  create_fresh_title_succeeds ⟨[⟨1, "a", false⟩]⟩ "b" true (by decide) (by decide)

/-- Claim C3 counterexample: the `POST /tasks` body is parsed as the table
model `Task`, so it may carry an `id`; the created task's id then equals the
client-supplied value (42 versus 7 below), contradicting "never taken from
any client input". -/
theorem create_client_id_counterexample :
    (create_task ⟨[]⟩ "x" false (some 42)).1 = .ok ⟨42, "x", false⟩
    ∧ (create_task ⟨[]⟩ "x" false (some 7)).1 = .ok ⟨7, "x", false⟩ := by
  decide

/-- Claim C3 (amended): a successful create assigns the client-supplied body
id when one is present, and `maxId + 1` otherwise (which may reuse the id of
a deleted task); once a task is stored, update, mark-done and toggle never
change any task's id. -/
theorem task_id_stable_and_assignment :
    (∀ (db : DB) (i : Nat) (title : String) (done : Bool),
        (update_task db i title done).2.tasks.map Task.id = db.tasks.map Task.id
        ∧ (mark_task_done db i).2.tasks.map Task.id = db.tasks.map Task.id
        ∧ (toggle_task db i).2.tasks.map Task.id = db.tasks.map Task.id)
    ∧ (∀ (db : DB) (title : String) (done : Bool) (cid : Option Nat)
        (r : Task) (db2 : DB),
        create_task db title done cid = (.ok r, db2)
        → r.id = cid.getD (nextId db)) := by
  constructor
  · intro db i title done
    refine ⟨?_, ?_, ?_⟩
    · unfold update_task
      cases hf : db.tasks.find? (fun t => t.id == i) with
      | none => rfl
      | some t =>
          exact map_proj_map_ite Task.id (fun u => ⟨u.id, title, done⟩)
            (fun u => rfl)
    · unfold mark_task_done
      cases hf : db.tasks.find? (fun t => t.id == i) with
      | none => rfl
      | some t =>
          exact map_proj_map_ite Task.id (fun u => ⟨u.id, u.title, true⟩)
            (fun u => rfl)
    · unfold toggle_task
      cases hf : db.tasks.find? (fun t => t.id == i) with
      | none => rfl
      | some t =>
          exact map_proj_map_ite Task.id (fun u => ⟨u.id, u.title, !u.done⟩)
            (fun u => rfl)
  · intro db title done cid r db2 h
    unfold create_task at h
    by_cases h1 : db.tasks.any (fun t => t.title == title) = true
    · rw [if_pos h1] at h
      exact absurd (congrArg Prod.fst h) (by simp)
    · rw [if_neg h1] at h
      by_cases h2 : db.tasks.any (fun t => t.id == cid.getD (nextId db)) = true
      · rw [if_pos h2] at h
        exact absurd (congrArg Prod.fst h) (by simp)
      · rw [if_neg h2] at h
        have := congrArg Prod.fst h
        simp only [Except.ok.injEq] at this
        rw [← this]

/-- Witness for `task_id_stable_and_assignment`: ids unchanged by a concrete
update, and the concrete client-supplied id 42 is the one assigned. -/
theorem task_id_stable_and_assignment_witness :
    (update_task ⟨[⟨5, "a", false⟩]⟩ 5 "b" true).2.tasks.map Task.id
      = (DB.mk [⟨5, "a", false⟩]).tasks.map Task.id
    ∧ Task.id ⟨42, "x", false⟩ = Option.getD (some 42) (nextId ⟨[]⟩) :=
  ⟨(task_id_stable_and_assignment.1 ⟨[⟨5, "a", false⟩]⟩ 5 "b" true).1,
   task_id_stable_and_assignment.2 ⟨[]⟩ "x" false (some 42) ⟨42, "x", false⟩
     ⟨[⟨42, "x", false⟩]⟩ rfl⟩

/-- Claim C4: for an existing id, update performs a full replace of `title`
and `done` with the request values, persists the result and returns the
updated record; it performs no title-uniqueness check, and a store with two
tasks sharing a title is reachable via update (concretely: create "a",
create "bb", then update task 2 to title "a"). -/
theorem update_full_replace_no_uniqueness :
    (∀ (db : DB) (i : Nat) (title : String) (done : Bool),
        (∃ t ∈ db.tasks, t.id = i) →
        update_task db i title done
          = (.ok ⟨i, title, done⟩,
             ⟨db.tasks.map (fun u => if u.id == i then ⟨u.id, title, done⟩ else u)⟩)
        ∧ (⟨i, title, done⟩ : Task) ∈ (update_task db i title done).2.tasks)
    ∧ (run [Op.createOp "a" false, Op.createOp "bb" false,
            Op.updateOp 2 "a" true]).tasks.map Task.title = ["a", "a"] := by
  constructor
  · intro db i title done h
    obtain ⟨u, hu, hui⟩ := find?_id_exists h
    have hrun : update_task db i title done
        = (.ok ⟨i, title, done⟩,
           ⟨db.tasks.map (fun v => if v.id == i then ⟨v.id, title, done⟩ else v)⟩) := by
      rw [update_task_some hu, hui]
    refine ⟨hrun, ?_⟩
    rw [hrun]
    exact List.mem_map.mpr ⟨u, List.mem_of_find?_eq_some hu, by simp [hui]⟩
  · decide

/-- Witness for `update_full_replace_no_uniqueness` at a concrete store. -/
theorem update_full_replace_no_uniqueness_witness :
    (update_task ⟨[⟨1, "a", false⟩, ⟨2, "bb", true⟩]⟩ 2 "c" false
      = (.ok ⟨2, "c", false⟩,
         ⟨[⟨1, "a", false⟩, ⟨2, "bb", true⟩].map
            (fun u => if u.id == 2 then ⟨u.id, "c", false⟩ else u)⟩)
      ∧ (⟨2, "c", false⟩ : Task)
          ∈ (update_task ⟨[⟨1, "a", false⟩, ⟨2, "bb", true⟩]⟩ 2 "c" false).2.tasks)
    ∧ (run [Op.createOp "a" false, Op.createOp "bb" false,
            Op.updateOp 2 "a" true]).tasks.map Task.title = ["a", "a"] :=
  ⟨update_full_replace_no_uniqueness.1 ⟨[⟨1, "a", false⟩, ⟨2, "bb", true⟩]⟩ 2 "c"
     false ⟨⟨2, "bb", true⟩, by decide, rfl⟩,
   update_full_replace_no_uniqueness.2⟩

/-- Claim C5: on a task_id with no matching task, each of update, delete,
mark-done and toggle fails with HTTP 404 ("Tarea no encontrada") and returns
the store unchanged; on an existing task_id each of the four succeeds. -/
theorem missing_id_fails_404_existing_succeeds :
    ∀ (db : DB) (i : Nat) (title : String) (done : Bool),
    ((∀ t ∈ db.tasks, t.id ≠ i) →
      update_task db i title done
          = (.error (.httpError 404 "Tarea no encontrada"), db)
      ∧ delete_task db i = (.error (.httpError 404 "Tarea no encontrada"), db)
      ∧ mark_task_done db i = (.error (.httpError 404 "Tarea no encontrada"), db)
      ∧ toggle_task db i = (.error (.httpError 404 "Tarea no encontrada"), db))
    ∧ ((∃ t ∈ db.tasks, t.id = i) →
      (∃ r db2, update_task db i title done = (.ok r, db2))
      ∧ (∃ m db2, delete_task db i = (.ok m, db2))
      ∧ (∃ r db2, mark_task_done db i = (.ok r, db2))
      ∧ (∃ r db2, toggle_task db i = (.ok r, db2))) := by
  intro db i title done
  constructor
  · intro h
    have hnone := find?_id_eq_none h
    exact ⟨update_task_none hnone title done, delete_task_none hnone,
      mark_task_done_none hnone, toggle_task_none hnone⟩
  · intro h
    obtain ⟨u, hu, hui⟩ := find?_id_exists h
    exact ⟨⟨_, _, update_task_some hu title done⟩, ⟨_, _, delete_task_some hu⟩,
      ⟨_, _, mark_task_done_some hu⟩, ⟨_, _, toggle_task_some hu⟩⟩

/-- Witness for `missing_id_fails_404_existing_succeeds`: id 2 is absent
from the one-task store, id 1 is present. -/
theorem missing_id_fails_404_existing_succeeds_witness :
    (update_task ⟨[⟨1, "a", false⟩]⟩ 2 "b" true
        = (.error (.httpError 404 "Tarea no encontrada"), ⟨[⟨1, "a", false⟩]⟩)
      ∧ delete_task ⟨[⟨1, "a", false⟩]⟩ 2
        = (.error (.httpError 404 "Tarea no encontrada"), ⟨[⟨1, "a", false⟩]⟩)
      ∧ mark_task_done ⟨[⟨1, "a", false⟩]⟩ 2
        = (.error (.httpError 404 "Tarea no encontrada"), ⟨[⟨1, "a", false⟩]⟩)
      ∧ toggle_task ⟨[⟨1, "a", false⟩]⟩ 2
        = (.error (.httpError 404 "Tarea no encontrada"), ⟨[⟨1, "a", false⟩]⟩))
    ∧ ((∃ r db2, update_task ⟨[⟨1, "a", false⟩]⟩ 1 "b" true = (.ok r, db2))
      ∧ (∃ m db2, delete_task ⟨[⟨1, "a", false⟩]⟩ 1 = (.ok m, db2))
      ∧ (∃ r db2, mark_task_done ⟨[⟨1, "a", false⟩]⟩ 1 = (.ok r, db2))
      ∧ (∃ r db2, toggle_task ⟨[⟨1, "a", false⟩]⟩ 1 = (.ok r, db2))) :=
  ⟨(missing_id_fails_404_existing_succeeds ⟨[⟨1, "a", false⟩]⟩ 2 "b" true).1
     (by decide),
   (missing_id_fails_404_existing_succeeds ⟨[⟨1, "a", false⟩]⟩ 1 "b" true).2
     ⟨⟨1, "a", false⟩, by decide, rfl⟩⟩

/-- Claim C6: for an existing task id, toggling twice returns the whole
store — and in particular the task's `done` flag — to its original value,
and mark-done is idempotent: each of two consecutive calls reports
`done = true` and the second call leaves the store exactly as the first
left it. -/
theorem toggle_involution_mark_done_idempotent (db : DB) (i : Nat)
    (h : ∃ t ∈ db.tasks, t.id = i) :
    (toggle_task (toggle_task db i).2 i).2 = db
    ∧ (∃ r, (mark_task_done db i).1 = .ok r ∧ r.done = true)
    ∧ (∃ r, (mark_task_done (mark_task_done db i).2 i).1 = .ok r
        ∧ r.done = true)
    ∧ (mark_task_done (mark_task_done db i).2 i).2
        = (mark_task_done db i).2 := by
  obtain ⟨u, hu, hui⟩ := find?_id_exists h
  have hmem : u ∈ db.tasks := List.mem_of_find?_eq_some hu
  have hb : (u.id == i) = true := by simp [hui]
  constructor
  · -- toggle twice restores the store
    have h1 := toggle_task_some hu
    have hdb1 : (toggle_task db i).2
        = ⟨db.tasks.map (fun v => if v.id == i then ⟨v.id, v.title, !v.done⟩ else v)⟩ := by
      rw [h1]
    have hmem2 : (⟨u.id, u.title, !u.done⟩ : Task) ∈ (toggle_task db i).2.tasks := by
      rw [hdb1]
      exact List.mem_map.mpr ⟨u, hmem, by rw [if_pos hb]⟩
    obtain ⟨w, hw, hwi⟩ :=
      @find?_id_exists (toggle_task db i).2 i ⟨_, hmem2, hui⟩
    have h2 := toggle_task_some hw
    have hgg : ∀ v ∈ db.tasks,
        (fun v : Task => if v.id == i then (⟨v.id, v.title, !v.done⟩ : Task) else v)
          ((fun v : Task => if v.id == i then (⟨v.id, v.title, !v.done⟩ : Task) else v) v)
          = v := by
      intro v _
      by_cases hc : v.id = i
      · have hcb : (v.id == i) = true := by simp [hc]
        simp [hcb]
      · have hcb : (v.id == i) = false := by simp [hc]
        simp [hcb]
    calc (toggle_task (toggle_task db i).2 i).2
        = ⟨(toggle_task db i).2.tasks.map
            (fun v => if v.id == i then ⟨v.id, v.title, !v.done⟩ else v)⟩ := by
          rw [h2]
      _ = ⟨(db.tasks.map
            (fun v => if v.id == i then ⟨v.id, v.title, !v.done⟩ else v)).map
            (fun v => if v.id == i then ⟨v.id, v.title, !v.done⟩ else v)⟩ := by
          rw [hdb1]
      _ = ⟨db.tasks⟩ := by rw [map_invol hgg]
      _ = db := rfl
  · -- mark-done is idempotent
    have m1 := mark_task_done_some hu
    have hdbm : (mark_task_done db i).2
        = ⟨db.tasks.map (fun v => if v.id == i then ⟨v.id, v.title, true⟩ else v)⟩ := by
      rw [m1]
    have hmem2 : (⟨u.id, u.title, true⟩ : Task) ∈ (mark_task_done db i).2.tasks := by
      rw [hdbm]
      exact List.mem_map.mpr ⟨u, hmem, by rw [if_pos hb]⟩
    obtain ⟨w, hw, hwi⟩ :=
      @find?_id_exists (mark_task_done db i).2 i ⟨_, hmem2, hui⟩
    have m2 := mark_task_done_some hw
    have hff : ∀ v ∈ db.tasks,
        (fun v : Task => if v.id == i then (⟨v.id, v.title, true⟩ : Task) else v)
          ((fun v : Task => if v.id == i then (⟨v.id, v.title, true⟩ : Task) else v) v)
          = (fun v : Task => if v.id == i then (⟨v.id, v.title, true⟩ : Task) else v) v := by
      intro v _
      by_cases hc : v.id = i
      · have hcb : (v.id == i) = true := by simp [hc]
        simp [hcb]
      · have hcb : (v.id == i) = false := by simp [hc]
        simp [hcb]
    refine ⟨⟨⟨u.id, u.title, true⟩, by rw [m1], rfl⟩,
      ⟨⟨w.id, w.title, true⟩, by rw [m2], rfl⟩, ?_⟩
    calc (mark_task_done (mark_task_done db i).2 i).2
        = ⟨(mark_task_done db i).2.tasks.map
            (fun v => if v.id == i then ⟨v.id, v.title, true⟩ else v)⟩ := by
          rw [m2]
      _ = ⟨(db.tasks.map
            (fun v => if v.id == i then ⟨v.id, v.title, true⟩ else v)).map
            (fun v => if v.id == i then ⟨v.id, v.title, true⟩ else v)⟩ := by
          rw [hdbm]
      _ = ⟨db.tasks.map
            (fun v => if v.id == i then ⟨v.id, v.title, true⟩ else v)⟩ := by
          rw [map_idem hff]
      _ = (mark_task_done db i).2 := by rw [hdbm]

/-- Witness for `toggle_involution_mark_done_idempotent` at a concrete
store. -/
theorem toggle_involution_mark_done_idempotent_witness :
    (toggle_task (toggle_task ⟨[⟨1, "a", false⟩]⟩ 1).2 1).2 = ⟨[⟨1, "a", false⟩]⟩
    ∧ (∃ r, (mark_task_done ⟨[⟨1, "a", false⟩]⟩ 1).1 = .ok r ∧ r.done = true)
    ∧ (∃ r, (mark_task_done (mark_task_done ⟨[⟨1, "a", false⟩]⟩ 1).2 1).1 = .ok r
        ∧ r.done = true)
    ∧ (mark_task_done (mark_task_done ⟨[⟨1, "a", false⟩]⟩ 1).2 1).2
        = (mark_task_done ⟨[⟨1, "a", false⟩]⟩ 1).2 :=
  toggle_involution_mark_done_idempotent ⟨[⟨1, "a", false⟩]⟩ 1
    ⟨⟨1, "a", false⟩, by decide, rfl⟩

lemma step_tasks (db : DB) (op : Op) :
    (step db op).tasks = specStep db.tasks op := by
  cases op with
  | createOp t d =>
      show (create_task db t d none).2.tasks = _
      simp only [specStep]
      by_cases hany : db.tasks.any (fun u => u.title == t) = true
      · rw [create_task_dup d none hany, if_pos hany]
      · have hf := Bool.eq_false_iff.mpr hany
        rw [create_task_fresh d hf, if_neg hany]
  | updateOp i t d =>
      show (update_task db i t d).2.tasks = _
      simp only [specStep]
      cases hfind : db.tasks.find? (fun u => u.id == i) with
      | none =>
          rw [update_task_none hfind t d]
          have hnone := List.find?_eq_none.mp hfind
          rw [map_ite_eq_self _ (fun u hu => by simpa using hnone u hu)]
      | some u => rw [update_task_some hfind t d]
  | deleteOp i =>
      show (delete_task db i).2.tasks = _
      simp only [specStep]
      cases hfind : db.tasks.find? (fun u => u.id == i) with
      | none =>
          rw [delete_task_none hfind]
          have hnone := List.find?_eq_none.mp hfind
          rw [filter_ne_eq_self (fun u hu => by simpa using hnone u hu)]
      | some u => rw [delete_task_some hfind]
  | doneOp i =>
      show (mark_task_done db i).2.tasks = _
      simp only [specStep]
      cases hfind : db.tasks.find? (fun u => u.id == i) with
      | none =>
          rw [mark_task_done_none hfind]
          have hnone := List.find?_eq_none.mp hfind
          rw [map_ite_eq_self _ (fun u hu => by simpa using hnone u hu)]
      | some u => rw [mark_task_done_some hfind]
  | toggleOp i =>
      show (toggle_task db i).2.tasks = _
      simp only [specStep]
      cases hfind : db.tasks.find? (fun u => u.id == i) with
      | none =>
          rw [toggle_task_none hfind]
          have hnone := List.find?_eq_none.mp hfind
          rw [map_ite_eq_self _ (fun u hu => by simpa using hnone u hu)]
      | some u => rw [toggle_task_some hfind]

/-- Claim C7: in every state reachable by a sequence of API operations from
the empty store, the list endpoint returns exactly the spec-side view of the
trace — the tasks created and not subsequently deleted, each carrying the
id, title and done written by the last successful mutating operation on it.
(The listed records carry exactly the fields id/title/done: both `Task` and
the response model `TaskRead` consist of precisely those fields.) -/
theorem read_tasks_eq_spec_view (ops : List Op) :
    read_tasks (run ops) = specList ops := by
  suffices h : ∀ db : DB,
      (List.foldl step db ops).tasks = List.foldl specStep db.tasks ops by
    simpa [read_tasks, run, specList, emptyDB] using h ⟨[]⟩
  induction ops with
  | nil => intro db; rfl
  | cons op ops ih =>
      intro db
      simp only [List.foldl_cons]
      rw [ih (step db op), step_tasks db op]

/-- Claim C8: a create or update body with a missing title, an empty title,
or a title longer than 100 characters is rejected by the pydantic boundary
with HTTP 422 before the operation runs, leaving the store unchanged; a body
whose title has 1 to 100 characters passes this validation. -/
theorem invalid_body_422_valid_body_passes :
    ∀ (db : DB) (done : Option Bool) (cid : Option Nat) (i : Nat),
    (post_tasks db none done cid
        = (.error (.httpError 422 "field required: title"), db)
      ∧ put_task db i none done
        = (.error (.httpError 422 "field required: title"), db))
    ∧ (∀ s : String, s.length = 0 ∨ 100 < s.length →
        post_tasks db (some s) done cid
          = (.error (.httpError 422 "title: length must be between 1 and 100"), db)
        ∧ put_task db i (some s) done
          = (.error (.httpError 422 "title: length must be between 1 and 100"), db))
    ∧ (∀ s : String, 1 ≤ s.length → s.length ≤ 100 →
        parse_task_base (some s) done = .ok ⟨s, done.getD false⟩) := by
  intro db done cid i
  refine ⟨⟨rfl, rfl⟩, ?_, ?_⟩
  · intro s hs
    have hv : validTitle s = false := by
      unfold validTitle
      rcases hs with hs | hs
      · simp [hs]
      · have : ¬(s.length ≤ 100) := by omega
        simp [this]
    constructor
    · simp only [post_tasks, parse_task_base]
      rw [if_neg (by simp [hv])]
    · simp only [put_task, parse_task_base]
      rw [if_neg (by simp [hv])]
  · intro s h1 h2
    have hv : validTitle s = true := by
      unfold validTitle
      rw [decide_eq_true h1, decide_eq_true h2]
      rfl
    simp only [parse_task_base]
    rw [if_pos hv]

/-- Witness for `invalid_body_422_valid_body_passes`: missing title, empty
title, and the one-character title "a". -/
theorem invalid_body_422_valid_body_passes_witness :
    (post_tasks ⟨[]⟩ none none none
        = (.error (.httpError 422 "field required: title"), ⟨[]⟩)
      ∧ put_task ⟨[]⟩ 1 none none
        = (.error (.httpError 422 "field required: title"), ⟨[]⟩))
    ∧ (post_tasks ⟨[]⟩ (some "") none none
        = (.error (.httpError 422 "title: length must be between 1 and 100"), ⟨[]⟩)
      ∧ put_task ⟨[]⟩ 1 (some "") none
        = (.error (.httpError 422 "title: length must be between 1 and 100"), ⟨[]⟩))
    ∧ parse_task_base (some "a") none = .ok ⟨"a", false⟩ :=
  ⟨(invalid_body_422_valid_body_passes ⟨[]⟩ none none 1).1,
   (invalid_body_422_valid_body_passes ⟨[]⟩ none none 1).2.1 "" (Or.inl rfl),
   (invalid_body_422_valid_body_passes ⟨[]⟩ none none 1).2.2 "a" (by decide)
     (by decide)⟩

/-- Claim C9: deleting an existing task id removes every row with that id
from the store and returns the confirmation message
"Tarea con id {task_id} eliminada", which contains the deleted id. -/
theorem delete_existing_removes_row_confirms (db : DB) (i : Nat)
    (h : ∃ t ∈ db.tasks, t.id = i) :
    delete_task db i
      = (.ok ("Tarea con id " ++ toString i ++ " eliminada"),
         ⟨db.tasks.filter (fun t => t.id != i)⟩)
    ∧ (∀ t ∈ (delete_task db i).2.tasks, t.id ≠ i)
    ∧ (∃ s1 s2 : String,
        "Tarea con id " ++ toString i ++ " eliminada" = s1 ++ toString i ++ s2) := by
  obtain ⟨u, hu, hui⟩ := find?_id_exists h
  have hd := delete_task_some hu
  refine ⟨hd, ?_, ⟨"Tarea con id ", " eliminada", rfl⟩⟩
  intro t ht
  rw [hd] at ht
  have := (List.mem_filter.mp ht).2
  simpa using this

/-- Witness for `delete_existing_removes_row_confirms` at a concrete
store. -/
theorem delete_existing_removes_row_confirms_witness :
    delete_task ⟨[⟨1, "a", false⟩]⟩ 1
      = (.ok ("Tarea con id " ++ toString 1 ++ " eliminada"),
         ⟨[⟨1, "a", false⟩].filter (fun t => t.id != 1)⟩)
    ∧ (∀ t ∈ (delete_task ⟨[⟨1, "a", false⟩]⟩ 1).2.tasks, t.id ≠ 1)
    ∧ (∃ s1 s2 : String,
        "Tarea con id " ++ toString 1 ++ " eliminada"
          = s1 ++ toString 1 ++ s2) :=
  delete_existing_removes_row_confirms ⟨[⟨1, "a", false⟩]⟩ 1
    ⟨⟨1, "a", false⟩, by decide, rfl⟩

/-- Claim C10: every operation touches at most its target row — the rows
whose id differs from the targeted task_id are exactly the same before and
after update, delete, mark-done and toggle; mark-done and toggle never
change any row's id or title; and create only appends, leaving every
pre-existing row unchanged. -/
theorem operations_frame_conditions :
    ∀ (db : DB) (i : Nat) (title : String) (done : Bool) (cid : Option Nat),
    ((update_task db i title done).2.tasks.filter (fun t => t.id != i)
        = db.tasks.filter (fun t => t.id != i))
    ∧ ((delete_task db i).2.tasks.filter (fun t => t.id != i)
        = db.tasks.filter (fun t => t.id != i))
    ∧ ((mark_task_done db i).2.tasks.filter (fun t => t.id != i)
        = db.tasks.filter (fun t => t.id != i))
    ∧ ((toggle_task db i).2.tasks.filter (fun t => t.id != i)
        = db.tasks.filter (fun t => t.id != i))
    ∧ ((mark_task_done db i).2.tasks.map (fun t => (t.id, t.title))
        = db.tasks.map (fun t => (t.id, t.title)))
    ∧ ((toggle_task db i).2.tasks.map (fun t => (t.id, t.title))
        = db.tasks.map (fun t => (t.id, t.title)))
    ∧ (∃ l, (create_task db title done cid).2.tasks = db.tasks ++ l) := by
  intro db i title done cid
  refine ⟨?_, ?_, ?_, ?_, ?_, ?_, ?_⟩
  · cases hfind : db.tasks.find? (fun u => u.id == i) with
    | none => rw [update_task_none hfind title done]
    | some u =>
        rw [update_task_some hfind title done]
        exact filter_map_ite _ (fun u => rfl)
  · cases hfind : db.tasks.find? (fun u => u.id == i) with
    | none => rw [delete_task_none hfind]
    | some u =>
        rw [delete_task_some hfind]
        exact filter_ne_idem db.tasks i
  · cases hfind : db.tasks.find? (fun u => u.id == i) with
    | none => rw [mark_task_done_none hfind]
    | some u =>
        rw [mark_task_done_some hfind]
        exact filter_map_ite _ (fun u => rfl)
  · cases hfind : db.tasks.find? (fun u => u.id == i) with
    | none => rw [toggle_task_none hfind]
    | some u =>
        rw [toggle_task_some hfind]
        exact filter_map_ite _ (fun u => rfl)
  · cases hfind : db.tasks.find? (fun u => u.id == i) with
    | none => rw [mark_task_done_none hfind]
    | some u =>
        rw [mark_task_done_some hfind]
        exact map_proj_map_ite _ _ (fun u => rfl)
  · cases hfind : db.tasks.find? (fun u => u.id == i) with
    | none => rw [toggle_task_none hfind]
    | some u =>
        rw [toggle_task_some hfind]
        exact map_proj_map_ite _ _ (fun u => rfl)
  · by_cases hany : db.tasks.any (fun t => t.title == title) = true
    · refine ⟨[], ?_⟩
      rw [create_task_dup done cid hany, List.append_nil]
    · have h1 := Bool.eq_false_iff.mpr hany
      by_cases hcol : db.tasks.any (fun t => t.id == cid.getD (nextId db)) = true
      · refine ⟨[], ?_⟩
        rw [create_task_collision done h1 hcol, List.append_nil]
      · have h2 := Bool.eq_false_iff.mpr hcol
        exact ⟨[⟨cid.getD (nextId db), title, done⟩], by rw [create_task_ok done h1 h2]⟩

end TodoApp
